import Mathlib

/-!
Shallow embedding of the Intcode processor in `src/day07/src/lib.rs`
(module `icm`).

Modelling conventions:
* Machine words (`i32`) are modelled as `Int`; Rust's truncating `/` and `%`
  are `Int.tdiv` and `Int.tmod`.
* Memory (`Vec<i32>`) is a `List Int`; `usize` indices are `Nat`.
* A Rust `panic!`, failing `unwrap`/`expect`, or out-of-bounds index is
  modelled as an `Except.error` carrying the error kind of the panic site:
  a failing `val.try_into()` in `parse_param` or at a jump target is
  `AddressingError`, the "Invalid parameter" panic on a non-Position
  destination is `ArgumentError`, out-of-bounds indexing or the
  "Invalid memory address" panic is `BoundsError`, and a failing channel
  `recv` is `ChannelError`.
* The mpsc channels are modelled as the lists of pending input values and
  of emitted output values.
* `Processor::run`'s unbounded loop is given explicit fuel.
-/

namespace Icm

/-- Error kinds, one per panic site of the Rust code. -/
inductive Err where
  | AddressingError
  | ArgumentError
  | BoundsError
  | ChannelError
deriving DecidableEq

/-- `enum Param { Position(usize), Immediate(i32) }`. -/
inductive Param where
  | Position (n : Nat)
  | Immediate (v : Int)
deriving DecidableEq

/-- `fn parse_param(nth: u32, pcode: i32, val: i32) -> Param`:
if `(pcode / 10.pow(nth)) % 10 == 0` then `Position(val.try_into().unwrap())`
(the unwrap fails on a negative `val`), else `Immediate(val)`. -/
def parse_param (nth : Nat) (pcode : Int) (val : Int) : Except Err Param :=
  if (pcode.tdiv (10 ^ nth)).tmod 10 = 0 then
    if 0 ≤ val then .ok (.Position val.toNat) else .error .AddressingError
  else
    .ok (.Immediate val)

/-- `enum Instr`, the closed instruction union. -/
inductive Instr where
  | Unknown
  | Halt
  | Add (p0 p1 p2 : Param)
  | Mul (p0 p1 p2 : Param)
  | Store (p0 : Param)
  | Show (p0 : Param)
  | JmpT (p0 p1 : Param)
  | JmpF (p0 p1 : Param)
  | CmpLt (p0 p1 p2 : Param)
  | CmpEq (p0 p1 p2 : Param)
deriving DecidableEq

/-- `struct Processor`: instruction pointer, memory, and the two channel
endpoints (pending input values, emitted output values). -/
structure Processor where
  ip : Nat
  mem : List Int
  input : List Int
  output : List Int
deriving DecidableEq

/-- `self.mem[n]` as an r-value: out of bounds panics (`BoundsError`). -/
def readMem (mem : List Int) (n : Nat) : Except Err Int :=
  match mem.get? n with
  | some v => .ok v
  | none => .error .BoundsError

/-- `self.mem[d] = v`: out of bounds panics (`BoundsError`). -/
def writeMem (mem : List Int) (d : Nat) (v : Int) : Except Err (List Int) :=
  if d < mem.length then .ok (mem.set d v) else .error .BoundsError

/-- A `usize::try_from` on an `i32` value (jump targets): fails on a
negative value. -/
def toIndex (v : Int) : Except Err Nat :=
  if 0 ≤ v then .ok v.toNat else .error .AddressingError

/-- Reads the single operand cell after `ip` and parses it. -/
def parse1 (mem : List Int) (ip : Nat) (pcode : Int) (mk : Param → Instr) :
    Except Err Instr := do
  let a0 ← readMem mem (ip + 1)
  let p0 ← parse_param 0 pcode a0
  pure (mk p0)

/-- Reads the two operand cells after `ip` and parses them. -/
def parse2 (mem : List Int) (ip : Nat) (pcode : Int) (mk : Param → Param → Instr) :
    Except Err Instr := do
  let a0 ← readMem mem (ip + 1)
  let p0 ← parse_param 0 pcode a0
  let a1 ← readMem mem (ip + 2)
  let p1 ← parse_param 1 pcode a1
  pure (mk p0 p1)

/-- Reads the three operand cells after `ip` and parses them. -/
def parse3 (mem : List Int) (ip : Nat) (pcode : Int)
    (mk : Param → Param → Param → Instr) : Except Err Instr := do
  let a0 ← readMem mem (ip + 1)
  let p0 ← parse_param 0 pcode a0
  let a1 ← readMem mem (ip + 2)
  let p1 ← parse_param 1 pcode a1
  let a2 ← readMem mem (ip + 3)
  let p2 ← parse_param 2 pcode a2
  pure (mk p0 p1 p2)

/-- The `match opcode` dispatch of `fetch_instruction`, as a function of
the already-split opcode and parameter-mode code. -/
def decode_op (mem : List Int) (ip : Nat) (opcode pcode : Int) :
    Except Err Instr :=
  if opcode = 1 then parse3 mem ip pcode .Add
  else if opcode = 2 then parse3 mem ip pcode .Mul
  else if opcode = 3 then parse1 mem ip pcode .Store
  else if opcode = 4 then parse1 mem ip pcode .Show
  else if opcode = 5 then parse2 mem ip pcode .JmpT
  else if opcode = 6 then parse2 mem ip pcode .JmpF
  else if opcode = 7 then parse3 mem ip pcode .CmpLt
  else if opcode = 8 then parse3 mem ip pcode .CmpEq
  else if opcode = 99 then .ok .Halt
  else .ok .Unknown

/-- `fn fetch_instruction(&self) -> Instr`: reads the opcode word at `ip`
(the `else` branch of `mem.get` is the "Invalid memory address" panic),
splits it with Rust's truncating `%` and `/`, and dispatches. -/
def fetch_instruction (mem : List Int) (ip : Nat) : Except Err Instr :=
  match mem.get? ip with
  | none => .error .BoundsError
  | some val => decode_op mem ip (val.tmod 100) (val.tdiv 100)

/-- `fn fetch_param(&self, p: Param) -> i32`. -/
def fetch_param (s : Processor) : Param → Except Err Int
  | .Position n => readMem s.mem n
  | .Immediate v => .ok v

/-- The `match i` body of `fn run_instr(&mut self) -> bool`: returns the
continue flag and the updated state. -/
def exec (s : Processor) : Instr → Except Err (Bool × Processor)
  | .Unknown => .ok (false, s)
  | .Halt => .ok (false, s)
  | .Add p0 p1 p2 =>
    match fetch_param s p0 with
    | .error e => .error e
    | .ok v0 =>
      match fetch_param s p1 with
      | .error e => .error e
      | .ok v1 =>
        match p2 with
        | .Immediate _ => .error .ArgumentError
        | .Position d =>
          match writeMem s.mem d (v0 + v1) with
          | .error e => .error e
          | .ok m => .ok (true, { s with mem := m, ip := s.ip + 4 })
  | .Mul p0 p1 p2 =>
    match fetch_param s p0 with
    | .error e => .error e
    | .ok v0 =>
      match fetch_param s p1 with
      | .error e => .error e
      | .ok v1 =>
        match p2 with
        | .Immediate _ => .error .ArgumentError
        | .Position d =>
          match writeMem s.mem d (v0 * v1) with
          | .error e => .error e
          | .ok m => .ok (true, { s with mem := m, ip := s.ip + 4 })
  | .Store p0 =>
    match p0 with
    | .Immediate _ => .error .ArgumentError
    | .Position d =>
      match s.input with
      | [] => .error .ChannelError
      | v :: rest =>
        match writeMem s.mem d v with
        | .error e => .error e
        | .ok m => .ok (true, { s with mem := m, input := rest, ip := s.ip + 2 })
  | .Show p0 =>
    match fetch_param s p0 with
    | .error e => .error e
    | .ok v => .ok (true, { s with output := s.output ++ [v], ip := s.ip + 2 })
  | .JmpT p0 p1 =>
    match fetch_param s p0 with
    | .error e => .error e
    | .ok v0 =>
      if v0 = 0 then .ok (true, { s with ip := s.ip + 3 })
      else
        match fetch_param s p1 with
        | .error e => .error e
        | .ok v1 =>
          match toIndex v1 with
          | .error e => .error e
          | .ok t => .ok (true, { s with ip := t })
  | .JmpF p0 p1 =>
    match fetch_param s p0 with
    | .error e => .error e
    | .ok v0 =>
      if v0 = 0 then
        match fetch_param s p1 with
        | .error e => .error e
        | .ok v1 =>
          match toIndex v1 with
          | .error e => .error e
          | .ok t => .ok (true, { s with ip := t })
      else .ok (true, { s with ip := s.ip + 3 })
  | .CmpLt p0 p1 p2 =>
    match fetch_param s p0 with
    | .error e => .error e
    | .ok v0 =>
      match fetch_param s p1 with
      | .error e => .error e
      | .ok v1 =>
        match p2 with
        | .Immediate _ => .error .ArgumentError
        | .Position d =>
          match writeMem s.mem d (if v0 < v1 then 1 else 0) with
          | .error e => .error e
          | .ok m => .ok (true, { s with mem := m, ip := s.ip + 4 })
  | .CmpEq p0 p1 p2 =>
    match fetch_param s p0 with
    | .error e => .error e
    | .ok v0 =>
      match fetch_param s p1 with
      | .error e => .error e
      | .ok v1 =>
        match p2 with
        | .Immediate _ => .error .ArgumentError
        | .Position d =>
          match writeMem s.mem d (if v0 = v1 then 1 else 0) with
          | .error e => .error e
          | .ok m => .ok (true, { s with mem := m, ip := s.ip + 4 })

/-- `fn run_instr(&mut self) -> bool`: fetch, then execute. -/
def run_instr (s : Processor) : Except Err (Bool × Processor) :=
  match fetch_instruction s.mem s.ip with
  | .error e => .error e
  | .ok i => exec s i

/-- `pub fn run(&mut self)`: loop `run_instr` until it returns `false`,
with explicit fuel for the unbounded Rust loop. -/
def run : Nat → Processor → Except Err Processor
  | 0, s => .ok s
  | fuel + 1, s =>
    match run_instr s with
    | .error e => .error e
    | .ok (true, s') => run fuel s'
    | .ok (false, s') => .ok s'

/-- Claim C1: from memory `[1101,4,5,6,0,0,99]` at `ip = 0`, one step leaves
memory index 6 equal to 9 and `ip = 4`, and the next step halts the run
(continue flag `false`) with `ip` still 4; the whole run stops there. -/
theorem c1_example_program_steps :
    run_instr ⟨0, [1101, 4, 5, 6, 0, 0, 99], [], []⟩ =
      .ok (true, ⟨4, [1101, 4, 5, 6, 0, 0, 9], [], []⟩) ∧
    run_instr ⟨4, [1101, 4, 5, 6, 0, 0, 9], [], []⟩ =
      .ok (false, ⟨4, [1101, 4, 5, 6, 0, 0, 9], [], []⟩) ∧
    run 2 ⟨0, [1101, 4, 5, 6, 0, 0, 99], [], []⟩ =
      .ok ⟨4, [1101, 4, 5, 6, 0, 0, 9], [], []⟩ := by
  refine ⟨rfl, rfl, rfl⟩

/-- Claim C2: for every memory and in-bounds `ip`, the decoder is exactly
the opcode dispatch applied to `memory[ip].tmod 100` (the opcode) and
`memory[ip].tdiv 100` (the mode digits) — Rust's truncating `%` and `/` —
for every word value, negative words included. -/
theorem c2_decoder_uses_tmod_tdiv (mem : List Int) (ip : Nat) (val : Int)
    (h : mem.get? ip = some val) :
    fetch_instruction mem ip = decode_op mem ip (val.tmod 100) (val.tdiv 100) := by
  have h' : mem[ip]? = some val := by simpa using h
  simp [fetch_instruction, h']

/-- Witness for C2 at a negative opcode word: memory `[-101]`, whose word
splits into opcode `-1` and mode digits `-1` under truncating division,
hence decodes to `Unknown`. -/
theorem c2_witness_negative_word :
    ([-101] : List Int).get? 0 = some (-101) ∧
    fetch_instruction [-101] 0 =
      decode_op [-101] 0 (Int.tmod (-101) 100) (Int.tdiv (-101) 100) ∧
    fetch_instruction [-101] 0 = .ok .Unknown :=
  ⟨rfl, c2_decoder_uses_tmod_tdiv [-101] 0 (-101) rfl, rfl⟩

/-- Counterexample to C3: at `nth = 0`, `modeDigits = 0` (so the selected
digit is 0) and raw value `-1`, the resolver does not return
`Position(-1)` — the claimed "exactly when the digit is 0" — but fails
with `AddressingError` (the `try_into().unwrap()` panics on a negative
value). -/
theorem c3_counterexample_negative_raw :
    parse_param 0 0 (-1) = .error .AddressingError := rfl

/-- Claim C3 (amended): the resolver returns `Position rawValue` exactly
when the `nth` decimal digit of `modeDigits` is 0 AND the raw value is
non-negative; digit 0 with a negative raw value fails with
`AddressingError`; any non-zero digit returns `Immediate rawValue`. -/
theorem c3_amended_parse_param_characterization (nth : Nat) (pcode val : Int) :
    (((pcode.tdiv (10 ^ nth)).tmod 10 = 0 ∧ 0 ≤ val →
        parse_param nth pcode val = .ok (.Position val.toNat)) ∧
      ((pcode.tdiv (10 ^ nth)).tmod 10 = 0 ∧ val < 0 →
        parse_param nth pcode val = .error .AddressingError) ∧
      ((pcode.tdiv (10 ^ nth)).tmod 10 ≠ 0 →
        parse_param nth pcode val = .ok (.Immediate val))) := by
  refine ⟨fun h => ?_, fun h => ?_, fun h => ?_⟩
  · simp [parse_param, h.1, h.2]
  · simp [parse_param, h.1, not_le.mpr h.2]
  · simp [parse_param, h]

/-- Witness for the amended C3, one concrete instance per branch:
digit 0 with raw 5 gives `Position 5`; digit 0 (of `modeDigits = 0` at
ordinal 1) with raw `-2` gives `AddressingError`; digit 1 with raw `-7`
gives `Immediate (-7)`. -/
theorem c3_amended_witness :
    parse_param 0 0 5 = .ok (.Position 5) ∧
    parse_param 1 0 (-2) = .error .AddressingError ∧
    parse_param 0 1 (-7) = .ok (.Immediate (-7)) :=
  ⟨(c3_amended_parse_param_characterization 0 0 5).1 ⟨rfl, by decide⟩,
   (c3_amended_parse_param_characterization 1 0 (-2)).2.1 ⟨rfl, by decide⟩,
   (c3_amended_parse_param_characterization 0 1 (-7)).2.2 (by decide)⟩

/-- Claim C4: whenever the instruction at `ip` decodes to `Add`, `Mul`,
`CmpLt` (LessThan) or `CmpEq` (Equals) whose destination is Position mode
with an in-bounds address, and the two source parameters resolve to `v0`
and `v1`, the step writes respectively `v0 + v1`, `v0 * v1`,
`if v0 < v1 then 1 else 0`, `if v0 = v1 then 1 else 0` to the destination
cell and advances `ip` by exactly 4. -/
theorem c4_arith_cmp_write_and_advance (s : Processor) (p0 p1 : Param)
    (d : Nat) (v0 v1 : Int)
    (h0 : fetch_param s p0 = .ok v0) (h1 : fetch_param s p1 = .ok v1)
    (hd : d < s.mem.length) :
    (fetch_instruction s.mem s.ip = .ok (.Add p0 p1 (.Position d)) →
      run_instr s = .ok (true, { s with mem := s.mem.set d (v0 + v1), ip := s.ip + 4 })) ∧
    (fetch_instruction s.mem s.ip = .ok (.Mul p0 p1 (.Position d)) →
      run_instr s = .ok (true, { s with mem := s.mem.set d (v0 * v1), ip := s.ip + 4 })) ∧
    (fetch_instruction s.mem s.ip = .ok (.CmpLt p0 p1 (.Position d)) →
      run_instr s = .ok (true, { s with mem := s.mem.set d (if v0 < v1 then 1 else 0), ip := s.ip + 4 })) ∧
    (fetch_instruction s.mem s.ip = .ok (.CmpEq p0 p1 (.Position d)) →
      run_instr s = .ok (true, { s with mem := s.mem.set d (if v0 = v1 then 1 else 0), ip := s.ip + 4 })) := by
  refine ⟨fun hf => ?_, fun hf => ?_, fun hf => ?_, fun hf => ?_⟩ <;>
    simp [run_instr, hf, exec, h0, h1, writeMem, hd]

/-- Witness for C4 at a concrete LessThan step: memory `[1107,2,5,4,0]`
decodes to `CmpLt (Immediate 2) (Immediate 5) (Position 4)`; since
`2 < 5`, cell 4 becomes 1 and `ip` becomes 4. -/
theorem c4_witness :
    run_instr ⟨0, [1107, 2, 5, 4, 0], [], []⟩ =
      .ok (true, ⟨4, [1107, 2, 5, 4, 1], [], []⟩) := by
  have h := (c4_arith_cmp_write_and_advance ⟨0, [1107, 2, 5, 4, 0], [], []⟩
    (.Immediate 2) (.Immediate 5) 4 2 5 rfl rfl (by decide)).2.2.1 rfl
  exact h.trans (by rfl)

/-- Counterexample to C5: memory `[1105,1,-1]` decodes to a JumpIfTrue with
immediate condition 1 (non-zero) and immediate target `-1`; the claim says
the step sets `ip` to the resolved target, but the code aborts with an
`AddressingError` (the `try_into().unwrap()` on the negative target
panics) and never updates `ip`. -/
theorem c5_counterexample_negative_target :
    run_instr ⟨0, [1105, 1, -1], [], []⟩ = .error .AddressingError := rfl

/-- Claim C5 (amended): a JumpIfTrue step with resolved condition 0
advances `ip` by exactly 3; with a non-zero condition and a non-negative
resolved target it sets `ip` to exactly that target, while a negative
resolved target aborts the step with `AddressingError`; JumpIfFalse is
the logical complement. -/
theorem c5_amended_jump_semantics (s : Processor) (p0 p1 : Param) (v0 : Int)
    (h0 : fetch_param s p0 = .ok v0) :
    (fetch_instruction s.mem s.ip = .ok (.JmpT p0 p1) →
      (v0 = 0 → run_instr s = .ok (true, { s with ip := s.ip + 3 })) ∧
      (v0 ≠ 0 → ∀ v1 : Int, fetch_param s p1 = .ok v1 →
        (0 ≤ v1 → run_instr s = .ok (true, { s with ip := v1.toNat })) ∧
        (v1 < 0 → run_instr s = .error .AddressingError))) ∧
    (fetch_instruction s.mem s.ip = .ok (.JmpF p0 p1) →
      (v0 ≠ 0 → run_instr s = .ok (true, { s with ip := s.ip + 3 })) ∧
      (v0 = 0 → ∀ v1 : Int, fetch_param s p1 = .ok v1 →
        (0 ≤ v1 → run_instr s = .ok (true, { s with ip := v1.toNat })) ∧
        (v1 < 0 → run_instr s = .error .AddressingError))) := by
  constructor
  · intro hf
    constructor
    · intro hv
      simp [run_instr, hf, exec, h0, hv]
    · intro hv v1 h1
      constructor
      · intro hnn
        simp [run_instr, hf, exec, h0, hv, h1, toIndex, hnn]
      · intro hneg
        simp [run_instr, hf, exec, h0, hv, h1, toIndex, not_le.mpr hneg]
  · intro hf
    constructor
    · intro hv
      simp [run_instr, hf, exec, h0, hv]
    · intro hv v1 h1
      constructor
      · intro hnn
        simp [run_instr, hf, exec, h0, hv, h1, toIndex, hnn]
      · intro hneg
        simp [run_instr, hf, exec, h0, hv, h1, toIndex, not_le.mpr hneg]

/-- Witness for the amended C5: memory `[1105,1,0]` is a taken JumpIfTrue
(condition 1, target 0), so `ip` becomes exactly 0; memory `[1106,0,2]`
is a taken JumpIfFalse (condition 0, target 2), so `ip` becomes exactly 2. -/
theorem c5_amended_witness :
    run_instr ⟨0, [1105, 1, 0], [], []⟩ = .ok (true, ⟨0, [1105, 1, 0], [], []⟩) ∧
    run_instr ⟨0, [1106, 0, 2], [], []⟩ = .ok (true, ⟨2, [1106, 0, 2], [], []⟩) := by
  constructor
  · have h := (((c5_amended_jump_semantics ⟨0, [1105, 1, 0], [], []⟩
      (.Immediate 1) (.Immediate 0) 1 rfl).1 rfl).2 (by decide) 0 rfl).1 (by decide)
    exact h.trans (by rfl)
  · have h := (((c5_amended_jump_semantics ⟨0, [1106, 0, 2], [], []⟩
      (.Immediate 0) (.Immediate 2) 0 rfl).2 rfl).2 rfl 2 rfl).1 (by decide)
    exact h.trans (by rfl)

/-- Claim C6: when the opcode word at `ip` decodes to `Unknown`, the step
reports and stops (continue flag `false`) with the whole state — memory
and `ip` — unchanged, and any further run from that state terminates at
once without fetching another instruction. -/
theorem c6_unknown_opcode_halts_cleanly (s : Processor)
    (h : fetch_instruction s.mem s.ip = .ok .Unknown) :
    run_instr s = .ok (false, s) ∧ ∀ fuel : Nat, run (fuel + 1) s = .ok s := by
  have hr : run_instr s = .ok (false, s) := by simp [run_instr, h, exec]
  exact ⟨hr, fun fuel => by simp [run, hr]⟩

/-- Witness for C6: memory `[0]` decodes to `Unknown` (opcode 0), the step
stops with the state unchanged and the run terminates immediately. -/
theorem c6_witness :
    run_instr ⟨0, [0], [], []⟩ = .ok (false, ⟨0, [0], [], []⟩) ∧
    run 5 ⟨0, [0], [], []⟩ = .ok ⟨0, [0], [], []⟩ :=
  ⟨(c6_unknown_opcode_halts_cleanly ⟨0, [0], [], []⟩ rfl).1,
   (c6_unknown_opcode_halts_cleanly ⟨0, [0], [], []⟩ rfl).2 4⟩

/-- Claim C7: for every instruction with a destination parameter (`Add`,
`Mul`, `Store`, `CmpLt`, `CmpEq`), an Immediate-mode destination makes the
step fail — no state (hence no memory write) is ever produced — and, as
soon as the source parameters resolve, the failure is exactly
`ArgumentError` (the "Invalid parameter" panic). `Store` checks its
destination before touching the input channel, so it fails with
`ArgumentError` unconditionally. -/
theorem c7_immediate_destination_rejected (s : Processor) (p0 p1 : Param)
    (w v0 v1 : Int) :
    (fetch_instruction s.mem s.ip = .ok (.Add p0 p1 (.Immediate w)) →
      (∃ e, run_instr s = .error e) ∧
      (fetch_param s p0 = .ok v0 → fetch_param s p1 = .ok v1 →
        run_instr s = .error .ArgumentError)) ∧
    (fetch_instruction s.mem s.ip = .ok (.Mul p0 p1 (.Immediate w)) →
      (∃ e, run_instr s = .error e) ∧
      (fetch_param s p0 = .ok v0 → fetch_param s p1 = .ok v1 →
        run_instr s = .error .ArgumentError)) ∧
    (fetch_instruction s.mem s.ip = .ok (.CmpLt p0 p1 (.Immediate w)) →
      (∃ e, run_instr s = .error e) ∧
      (fetch_param s p0 = .ok v0 → fetch_param s p1 = .ok v1 →
        run_instr s = .error .ArgumentError)) ∧
    (fetch_instruction s.mem s.ip = .ok (.CmpEq p0 p1 (.Immediate w)) →
      (∃ e, run_instr s = .error e) ∧
      (fetch_param s p0 = .ok v0 → fetch_param s p1 = .ok v1 →
        run_instr s = .error .ArgumentError)) ∧
    (fetch_instruction s.mem s.ip = .ok (.Store (.Immediate w)) →
      run_instr s = .error .ArgumentError) := by
  refine ⟨fun hf => ⟨?_, fun h0 h1 => ?_⟩, fun hf => ⟨?_, fun h0 h1 => ?_⟩,
    fun hf => ⟨?_, fun h0 h1 => ?_⟩, fun hf => ⟨?_, fun h0 h1 => ?_⟩,
    fun hf => ?_⟩ <;>
    first
    | (cases ha : fetch_param s p0 with
       | error e => exact ⟨e, by simp [run_instr, hf, exec, ha]⟩
       | ok u0 =>
        cases hb : fetch_param s p1 with
        | error e => exact ⟨e, by simp [run_instr, hf, exec, ha, hb]⟩
        | ok u1 => exact ⟨.ArgumentError, by simp [run_instr, hf, exec, ha, hb]⟩)
    | simp [run_instr, hf, exec, h0, h1]
    | simp [run_instr, hf, exec]

/-- Witness for C7: memory `[11101,2,3,9]` is an `Add` whose destination is
`Immediate 9`, and memory `[103,7]` is a `Store` whose destination is
`Immediate 7`; both steps fail with `ArgumentError`. -/
theorem c7_witness :
    run_instr ⟨0, [11101, 2, 3, 9], [], []⟩ = .error .ArgumentError ∧
    run_instr ⟨0, [103, 7], [], []⟩ = .error .ArgumentError :=
  ⟨((c7_immediate_destination_rejected ⟨0, [11101, 2, 3, 9], [], []⟩
      (.Immediate 2) (.Immediate 3) 9 2 3).1 rfl).2 rfl rfl,
   (c7_immediate_destination_rejected ⟨0, [103, 7], [], []⟩
      (.Immediate 0) (.Immediate 0) 7 0 0).2.2.2.2 rfl⟩

/-- Claim C8: resolving a parameter whose selected mode digit is 0
(Position mode) with a negative raw value fails with `AddressingError`
rather than producing a Parameter, and a run whose next decode fails with
`AddressingError` aborts with that same error. -/
theorem c8_negative_position_aborts (nth : Nat) (pcode val : Int)
    (hdig : (pcode.tdiv (10 ^ nth)).tmod 10 = 0) (hneg : val < 0) :
    parse_param nth pcode val = .error .AddressingError ∧
    ∀ (s : Processor) (fuel : Nat),
      fetch_instruction s.mem s.ip = .error .AddressingError →
      run (fuel + 1) s = .error .AddressingError := by
  constructor
  · simp [parse_param, hdig, not_le.mpr hneg]
  · intro s fuel hf
    have hr : run_instr s = .error .AddressingError := by simp [run_instr, hf]
    simp [run, hr]

/-- Witness for C8: `parse_param 0 0 (-3)` fails with `AddressingError`,
and the run of memory `[3,-1]` (a `Store` whose Position-mode operand has
raw value `-1`) aborts with `AddressingError`. -/
theorem c8_witness :
    parse_param 0 0 (-3) = .error .AddressingError ∧
    run 1 ⟨0, [3, -1], [], []⟩ = .error .AddressingError :=
  ⟨(c8_negative_position_aborts 0 0 (-3) rfl (by decide)).1,
   (c8_negative_position_aborts 0 0 (-3) rfl (by decide)).2 ⟨0, [3, -1], [], []⟩ 0 rfl⟩

/-- Claim C10: when a JumpIfTrue's resolved condition is 0, or a
JumpIfFalse's resolved condition is non-zero, the step succeeds and
advances `ip` by 3 for EVERY target parameter `p1` — the target is never
dereferenced, so an out-of-bounds Position target or a negative target
value causes no failure when the branch is not taken. -/
theorem c10_branch_not_taken_skips_target (s : Processor) (p0 p1 : Param)
    (v0 : Int) :
    (fetch_instruction s.mem s.ip = .ok (.JmpT p0 p1) →
      fetch_param s p0 = .ok 0 →
      run_instr s = .ok (true, { s with ip := s.ip + 3 })) ∧
    (fetch_instruction s.mem s.ip = .ok (.JmpF p0 p1) →
      fetch_param s p0 = .ok v0 → v0 ≠ 0 →
      run_instr s = .ok (true, { s with ip := s.ip + 3 })) := by
  constructor
  · intro hf h0
    simp [run_instr, hf, exec, h0]
  · intro hf h0 hv
    simp [run_instr, hf, exec, h0, hv]

/-- Witness for C10: memory `[105,0,999999]` is a non-taken JumpIfTrue
whose target is the far out-of-bounds `Position 999999`, and memory
`[1106,1,-5]` is a non-taken JumpIfFalse whose target value `-5` is
negative; both steps succeed with `ip = 3`. -/
theorem c10_witness :
    run_instr ⟨0, [105, 0, 999999], [], []⟩ =
      .ok (true, ⟨3, [105, 0, 999999], [], []⟩) ∧
    run_instr ⟨0, [1106, 1, -5], [], []⟩ =
      .ok (true, ⟨3, [1106, 1, -5], [], []⟩) := by
  constructor
  · have h := (c10_branch_not_taken_skips_target ⟨0, [105, 0, 999999], [], []⟩
      (.Immediate 0) (.Position 999999) 0).1 rfl rfl
    exact h.trans (by rfl)
  · have h := (c10_branch_not_taken_skips_target ⟨0, [1106, 1, -5], [], []⟩
      (.Immediate 1) (.Immediate (-5)) 1).2 rfl rfl (by decide)
    exact h.trans (by rfl)

/-- A successful `writeMem` preserves the length and every cell other than
the destination. -/
theorem writeMem_frame (mem m : List Int) (d : Nat) (v : Int)
    (h : writeMem mem d v = .ok m) :
    m.length = mem.length ∧ ∀ j, j ≠ d → m.get? j = mem.get? j := by
  unfold writeMem at h
  split at h
  · injection h with h'
    subst h'
    refine ⟨List.length_set _ _ _, fun j hj => ?_⟩
    simp [List.get?_eq_getElem?, List.getElem?_set_ne (fun hh => hj hh.symm)]
  · exact Except.noConfusion h

/-- Claim C9: every successfully completed step writes at most one memory
cell — there is a single index `d` such that all other cells keep their
prior values — and preserves the memory length (the step's new `ip` is a
single, determined update of the state). -/
theorem c9_step_frame (s s' : Processor) (b : Bool)
    (h : run_instr s = .ok (b, s')) :
    s'.mem.length = s.mem.length ∧
    ∃ d : Nat, ∀ j : Nat, j ≠ d → s'.mem.get? j = s.mem.get? j := by
  unfold run_instr at h
  split at h
  · exact Except.noConfusion h
  rename_i i hf
  cases i <;> simp only [exec] at h <;> (repeat' split at h) <;>
    first
    | exact Except.noConfusion h
    | (rename_i hw
       apply writeMem_frame at hw
       obtain ⟨hl, hfr⟩ := hw
       injection h with h'
       injection h' with hb hs
       subst hs
       exact ⟨hl, _, fun j hj => hfr j hj⟩)
    | (injection h with h'
       injection h' with hb hs
       subst hs
       exact ⟨rfl, 0, fun j _ => rfl⟩)

/-- Witness for C9 at a concrete `Show` step (memory `[104,42]`): the step
succeeds and the frame conclusion holds of its before/after memories. -/
theorem c9_witness :
    ([104, 42] : List Int).length = ([104, 42] : List Int).length ∧
    ∃ d : Nat, ∀ j : Nat, j ≠ d →
      ([104, 42] : List Int).get? j = ([104, 42] : List Int).get? j :=
  c9_step_frame ⟨0, [104, 42], [], []⟩ ⟨2, [104, 42], [], [42]⟩ true rfl

end Icm
